import Mathlib

/-!
Verification of the crossenv builder (`crossenv/__init__.py`) against its
specification. The Python code is shallowly embedded: every externally
observable effect (filesystem probes, glob results, subprocess outcomes)
is an explicit input field, and the control flow of each function is
translated statement by statement into a pure Lean function returning
`Except PyError` where the Python code can raise.
-/

set_option autoImplicit false

/-- The Python exception classes that the embedded code can raise, each
carrying the message (or, for `NameError`, the unresolved identifier). -/
inductive PyError where
  | fileNotFound (msg : String)
  | valueError (msg : String)
  | nameError (ident : String)
  | runtimeError (msg : String)
  | attributeError (msg : String)
deriving DecidableEq

/-- Joins strings with a separator, like `sep.join(...)` in Python. All the
string helpers below recurse structurally over the character list so that
every definition evaluates by `rfl`/`decide` on concrete inputs. -/
def strJoinWith (sep : String) : List String → String
  | [] => ""
  | [x] => x
  | x :: y :: rest => x ++ sep ++ strJoinWith sep (y :: rest)

/-- Splits at every occurrence of a separator character, like Python's
`str.split(sep)`: adjacent separators produce empty fields. -/
def pySplitCharAux (sep : Char) : List Char → List Char → List String
  | [], acc => [String.mk acc.reverse]
  | c :: cs, acc =>
    if c = sep then String.mk acc.reverse :: pySplitCharAux sep cs []
    else pySplitCharAux sep cs (c :: acc)

/-- Python `str.split(sep)` for a one-character separator. -/
def pySplitChar (sep : Char) (s : String) : List String :=
  pySplitCharAux sep s.data []

/-- Whether `pre` is a literal prefix of `s` (Python `str.startswith`). -/
def strStartsWith (s pre : String) : Bool :=
  pre.data.isPrefixOf s.data

/-- Whether `suf` is a literal suffix of `s` (Python `str.endswith`). -/
def strEndsWith (s suf : String) : Bool :=
  suf.data.reverse.isPrefixOf s.data.reverse

/-- The characters Python's `str.strip()`/`str.split()` treat as
whitespace. -/
def isPySpace (c : Char) : Bool :=
  c == ' ' || c == '\t' || c == '\n' || c == '\r' || c == '\x0b' || c == '\x0c'

/-- Python `str.strip()`: removes leading and trailing whitespace. -/
def pyStrip (s : String) : String :=
  String.mk (((s.data.dropWhile isPySpace).reverse.dropWhile isPySpace).reverse)

/-- Python `s[n:]`. -/
def strDrop (s : String) (n : Nat) : String :=
  String.mk (s.data.drop n)

/-- Embeds `os.path.dirname`: everything before the final path separator. -/
def osPathDirname (p : String) : String :=
  match (pySplitChar '/' p).dropLast with
  | [] => ""
  | parts => strJoinWith "/" parts

/-- Embeds `os.path.basename`: the final path component. -/
def osPathBasename (p : String) : String :=
  match (pySplitChar '/' p).getLast? with
  | Option.none => p
  | Option.some x => x

/-- Embeds `os.path.join` for two components (relative second component). -/
def osPathJoin (a b : String) : String :=
  if a = "" then b
  else if strEndsWith a "/" then a ++ b
  else a ++ "/" ++ b

/-- The root of `os.path.splitext`: the name with its final dot-suffix
removed (sufficient for the `_sysconfigdata*.py` names it is applied to). -/
def splitextRoot (name : String) : String :=
  match pySplitChar '.' name with
  | [] => name
  | [t] => t
  | t :: r :: rest => strJoinWith "." (List.dropLast (t :: r :: rest))

/-- Embeds `line.split('=', 1)[-1]`: everything after the first `=`, or the whole
string when there is no `=`. -/
def afterFirstEq (s : String) : String :=
  match pySplitChar '=' s with
  | [] => s
  | [t] => t
  | _ :: r :: rest => strJoinWith "=" (r :: rest)

/-- The validation of the discovered `_sysconfigdata*.py` candidate list
(`find_host_python`, the `if not sysconfigdata / elif len(...) > 1` block):
zero candidates raise `FileNotFoundError`, two or more raise `ValueError`,
exactly one is accepted. -/
def checkSysconfigdata (sysconfigdata : List String) : Except PyError String :=
  match sysconfigdata with
  | [] => .error (.fileNotFound "No _sysconfigdata*.py found in host lib")
  | [f] => .ok f
  | _ :: _ :: _ => .error (.valueError "Malformed Python installation.")

/-- Claim C2: after both discovery branches have produced the candidate list,
the locator fails with the configuration-data-not-found error exactly when
zero candidates were found, fails with the ambiguous-installation error
exactly when two or more were found, and proceeds exactly when there is one
candidate. -/
theorem claim_C2 : ∀ cands : List String,
    (checkSysconfigdata cands
        = .error (.fileNotFound "No _sysconfigdata*.py found in host lib")
      ↔ cands.length = 0)
    ∧ (checkSysconfigdata cands
        = .error (.valueError "Malformed Python installation.")
      ↔ 2 ≤ cands.length)
    ∧ ((∃ f, checkSysconfigdata cands = .ok f) ↔ cands.length = 1) := by
  intro cands
  rcases cands with _ | ⟨a, _ | ⟨b, t⟩⟩ <;>
    simp [checkSysconfigdata]

/-- Witness for claim C2 on concrete candidate lists of sizes zero, one and
two. -/
theorem claim_C2_witness :
    checkSysconfigdata []
      = .error (.fileNotFound "No _sysconfigdata*.py found in host lib")
    ∧ checkSysconfigdata ["/lib/a.py", "/lib/b.py"]
      = .error (.valueError "Malformed Python installation.")
    ∧ ∃ f, checkSysconfigdata ["/lib/a.py"] = .ok f :=
  ⟨(claim_C2 []).1.mpr rfl,
   (claim_C2 ["/lib/a.py", "/lib/b.py"]).2.1.mpr (by decide),
   (claim_C2 ["/lib/a.py"]).2.2.mpr rfl⟩

/-- The scan of the host Makefile for `_PYTHON_HOST_PLATFORM=` in
`find_host_python`: each line is stripped, the first line starting with the
key supplies the platform (the text after the first `=`); with no such line
the default, `sys.platform` of the running interpreter, is kept. -/
def scanPlatform (makefileLines : List String) (sys_platform : String) : String :=
  match makefileLines.find?
      (fun l => strStartsWith (pyStrip l) "_PYTHON_HOST_PLATFORM=") with
  | Option.none => sys_platform
  | Option.some l => afterFirstEq (pyStrip l)

/-- The externally observable inputs of `find_host_python`: the probed path,
the filesystem answers (existence, file kind, source-dir detection), the raw
glob results for each pattern the code globs, the values the executed
`_sysconfigdata` module exposes, and the Makefile contents. -/
structure FHPInput where
  hostPath : String
  pathExists : Bool
  pathIsFile : Bool
  isSourceDir : Bool
  pybuilddirContent : Option String
  sourceSysconfigdata : List String
  installedSysconfigdata : List String
  installedSysconfigdataPlat : List String
  anyLibFound : List String
  makefileGlob : List String
  cc : String
  version : String
  makefileExists : Bool
  makefileLines : List String
  buildVersion : String
  sysPlatform : String
deriving DecidableEq

/-- The result record assembled by `find_host_python` (the `self.host_*`
attributes it sets). -/
structure FHPResult where
  host_project_base : String
  host_home : String
  host_makefile : String
  host_sysconfigdata_file : String
  host_sysconfigdata_name : String
  host_cc : String
  host_version : String
  host_platform : String
deriving DecidableEq

/-- The two discovery branches of `find_host_python`: the source-checkout
branch reads `pybuilddir.txt` (an unreadable file raises; the `raise IOError`
line formats its message with the undefined name `s`, so a `NameError`
escapes) and globs the build subdirectory; the installed-tree branch globs
`lib/pythonX.Y`, falls back to a platform-subdirectory glob, and on a doubly
empty result with a wildcard-version hit raises the guessed version mismatch.
Returns `(host_makefile, host_home, sysconfigdata candidates)`. -/
def fhpDiscovery (inp : FHPInput) (host_project_base : String) :
    Except PyError (String × String × List String) :=
  if inp.isSourceDir then
    match inp.pybuilddirContent with
    | Option.none => .error (.nameError "s")
    | Option.some _ =>
      .ok (osPathJoin host_project_base "Makefile", host_project_base,
           inp.sourceSysconfigdata)
  else
    let host_home := osPathDirname host_project_base
    let host_makefile := match inp.makefileGlob with | [] => "" | m :: _ => m
    if inp.installedSysconfigdata ≠ [] then
      .ok (host_makefile, host_home, inp.installedSysconfigdata)
    else if inp.installedSysconfigdataPlat ≠ [] then
      .ok (host_makefile, host_home, inp.installedSysconfigdataPlat)
    else
      match inp.anyLibFound with
      | [] => .ok (host_makefile, host_home, [])
      | f :: _ =>
        .error (.valueError ("Version mismatch: host="
          ++ strDrop (osPathBasename (osPathDirname f)) 6
          ++ ", build=" ++ inp.buildVersion))

/-- Embeds `find_host_python` up to (but not including) its final version sanity
check: path validation, branch discovery, candidate validation, name
extraction, compiler/version extraction from the executed module, Makefile
existence check and platform scan. -/
def fhpCore (inp : FHPInput) : Except PyError FHPResult :=
  if !inp.pathExists then
    .error (.fileNotFound (inp.hostPath ++ " does not exist"))
  else if !inp.pathIsFile then
    .error (.valueError ("Expected a path to a Python executable. Got "
      ++ inp.hostPath))
  else
    match fhpDiscovery inp (osPathDirname inp.hostPath) with
    | .error e => .error e
    | .ok (host_makefile, host_home, sysconfigdata) =>
      match checkSysconfigdata sysconfigdata with
      | .error e => .error e
      | .ok host_sysconfigdata_file =>
        if !inp.makefileExists then
          .error (.fileNotFound "Cannot find Makefile")
        else
          .ok { host_project_base := osPathDirname inp.hostPath,
                host_home := host_home,
                host_makefile := host_makefile,
                host_sysconfigdata_file := host_sysconfigdata_file,
                host_sysconfigdata_name :=
                  splitextRoot (osPathBasename host_sysconfigdata_file),
                host_cc := inp.cc,
                host_version := inp.version,
                host_platform := scanPlatform inp.makefileLines inp.sysPlatform }

/-- Embeds `find_host_python`: the core above followed by the final sanity check
that the extracted host version equals the running (build) interpreter's
version; a mismatch raises `ValueError` naming both versions. -/
def findHostPython (inp : FHPInput) : Except PyError FHPResult :=
  match fhpCore inp with
  | .error e => .error e
  | .ok r =>
    if r.host_version ≠ inp.buildVersion then
      .error (.valueError ("Version mismatch: host=" ++ r.host_version
        ++ ", build=" ++ inp.buildVersion))
    else
      .ok r

/-- The observable outcome of one `subprocess.check_output` call. -/
inductive CheckOutputResult where
  | success (out : String)
  | calledProcessError
  | spawnFailure
deriving DecidableEq

/-- The nested `run_compiler` helper of `find_compiler_info`. Its
`except CalledProcessError:` clause names an identifier that is never
imported (`subprocess` is imported, the bare name is not), so whenever the
`check_output` call raises — nonzero exit (`CalledProcessError`) or spawn
failure (`FileNotFoundError`) — evaluating the handler's class expression
raises `NameError`, which replaces the original exception. The `return None`
arm is therefore unreachable. -/
def run_compiler (result : CheckOutputResult) : Except PyError (Option String) :=
  match result with
  | .success out => .ok (Option.some out)
  | .calledProcessError => .error (.nameError "CalledProcessError")
  | .spawnFailure => .error (.nameError "CalledProcessError")

/-- The outcomes of the two compiler invocations made by
`find_compiler_info` (`--version`, then `-print-sysroot`). -/
structure CompilerBehavior where
  versionQuery : CheckOutputResult
  sysrootQuery : CheckOutputResult
deriving DecidableEq

/-- Embeds `find_compiler_info`: the `--version` probe, whose `is None` test guards
the `RuntimeError` (unreachable, since `run_compiler` can only return a
string or raise), then the `-print-sysroot` probe whose result is `.strip()`ed
— applied to `None` that would raise `AttributeError`, likewise unreachable.
On success returns the trimmed sysroot recorded in `self.host_sysroot`. -/
def find_compiler_info (b : CompilerBehavior) : Except PyError String :=
  match run_compiler b.versionQuery with
  | .error e => .error e
  | .ok Option.none =>
    .error (.runtimeError "Cannot run cross-compiler! Extension modules won't build!")
  | .ok (Option.some _) =>
    match run_compiler b.sysrootQuery with
    | .error e => .error e
    | .ok Option.none => .error (.attributeError "NoneType has no attribute strip")
    | .ok (Option.some out) => .ok (pyStrip out)

/-- Embeds `self.clear_build = clear in ('default', 'build', 'both')` of
`CrossEnvBuilder.__init__`; `clear=False` is modeled as `Option.none`. -/
def initClearBuild (clear : Option String) : Bool :=
  clear = Option.some "default" || clear = Option.some "build"
    || clear = Option.some "both"

/-- Python truthiness of the `cross_prefix` constructor argument
(`None` and the empty string are falsy). -/
def crossPrefixTruthy (cpv : Option String) : Bool :=
  match cpv with
  | Option.none => false
  | Option.some s => s != ""

/-- Embeds `self.clear_cross` of `CrossEnvBuilder.__init__`: with a truthy
`cross_prefix` it is `clear in ('cross', 'both')`, otherwise
`clear in ('default', 'cross', 'both')`. -/
def initClearCross (cpv : Option String) (clear : Option String) : Bool :=
  if crossPrefixTruthy cpv then
    clear = Option.some "cross" || clear = Option.some "both"
  else
    clear = Option.some "default" || clear = Option.some "cross"
      || clear = Option.some "both"

/-- The constructor arguments of `CrossEnvBuilder` together with the
external observations its two probing calls depend on. -/
structure InitInput where
  fhp : FHPInput
  compiler : CompilerBehavior
  extraEnvVars : List (String × String × String)
  buildSystemSitePackages : Bool
  clearArg : Option String
  crossPrefixVal : Option String
  withCrossPip : Bool
  withBuildPip : Bool
deriving DecidableEq

/-- The state a successfully constructed `CrossEnvBuilder` holds. -/
structure Builder where
  host : FHPResult
  host_sysroot : String
  build_system_site_packages : Bool
  extra_env_vars : List (String × String × String)
  clear_build : Bool
  clear_cross : Bool
  with_cross_pip : Bool
  with_build_pip : Bool
deriving DecidableEq

/-- Embeds `CrossEnvBuilder.__init__`: runs `find_host_python`, then
`find_compiler_info`, then records the flags. Any raise propagates, so no
builder exists and `create` (the only place environment directories are
made) can never be reached. -/
def CrossEnvBuilder_init (inp : InitInput) : Except PyError Builder :=
  match findHostPython inp.fhp with
  | .error e => .error e
  | .ok host =>
    match find_compiler_info inp.compiler with
    | .error e => .error e
    | .ok host_sysroot =>
      .ok { host := host,
            host_sysroot := host_sysroot,
            build_system_site_packages := inp.buildSystemSitePackages,
            extra_env_vars := inp.extraEnvVars,
            clear_build := initClearBuild inp.clearArg,
            clear_cross := initClearCross inp.crossPrefixVal inp.clearArg,
            with_cross_pip := inp.withCrossPip,
            with_build_pip := inp.withBuildPip }

/-- Claim C1: whenever `find_host_python` reaches its final sanity check
(everything before it succeeded, yielding `pre`), a host version different
from the build interpreter's version makes construction fail with the
`ValueError` whose message names both versions — so no builder value exists
and `create` (the only code creating environment directories) can never run —
while equal versions let `find_host_python` return successfully, proceeding
past the check. -/
theorem claim_C1 : ∀ (inp : InitInput) (pre : FHPResult),
    fhpCore inp.fhp = .ok pre →
    (pre.host_version ≠ inp.fhp.buildVersion →
      CrossEnvBuilder_init inp
          = .error (.valueError ("Version mismatch: host=" ++ pre.host_version
              ++ ", build=" ++ inp.fhp.buildVersion))
        ∧ ∀ b, CrossEnvBuilder_init inp ≠ .ok b)
    ∧ (pre.host_version = inp.fhp.buildVersion →
        findHostPython inp.fhp = .ok pre) := by
  intro inp pre h
  constructor
  · intro hne
    have hfind : findHostPython inp.fhp
        = .error (.valueError ("Version mismatch: host=" ++ pre.host_version
            ++ ", build=" ++ inp.fhp.buildVersion)) := by
      simp [findHostPython, h, hne]
    refine ⟨?_, ?_⟩
    · simp [CrossEnvBuilder_init, hfind]
    · intro b
      simp [CrossEnvBuilder_init, hfind]
  · intro heq
    simp [findHostPython, h, heq]

/-- A concrete source-checkout locator input whose host version `3.9`
disagrees with the build interpreter's `3.10`. -/
def sampleMismatchInit : InitInput :=
  { fhp := { hostPath := "/src/python",
             pathExists := true,
             pathIsFile := true,
             isSourceDir := true,
             pybuilddirContent := Option.some "build",
             sourceSysconfigdata :=
               ["/src/build/_sysconfigdata__linux_x86_64-linux-gnu.py"],
             installedSysconfigdata := [],
             installedSysconfigdataPlat := [],
             anyLibFound := [],
             makefileGlob := [],
             cc := "arm-linux-gnueabi-gcc",
             version := "3.9",
             makefileExists := true,
             makefileLines := ["_PYTHON_HOST_PLATFORM=linux-arm"],
             buildVersion := "3.10",
             sysPlatform := "linux" },
    compiler := { versionQuery := .success "gcc (GCC) 9.3.0",
                  sysrootQuery := .success "/sysroot" },
    extraEnvVars := [],
    buildSystemSitePackages := false,
    clearArg := Option.none,
    crossPrefixVal := Option.none,
    withCrossPip := false,
    withBuildPip := false }

/-- The locator state `sampleMismatchInit` produces just before the version
sanity check. -/
def sampleMismatchPre : FHPResult :=
  { host_project_base := "/src",
    host_home := "/src",
    host_makefile := "/src/Makefile",
    host_sysconfigdata_file :=
      "/src/build/_sysconfigdata__linux_x86_64-linux-gnu.py",
    host_sysconfigdata_name := "_sysconfigdata__linux_x86_64-linux-gnu",
    host_cc := "arm-linux-gnueabi-gcc",
    host_version := "3.9",
    host_platform := "linux-arm" }

/-- Witness for claim C1 at a concrete mismatching input: construction
yields exactly the version-mismatch error naming both versions. -/
theorem claim_C1_witness :
    CrossEnvBuilder_init sampleMismatchInit
      = .error (.valueError "Version mismatch: host=3.9, build=3.10") :=
  ((claim_C1 sampleMismatchInit sampleMismatchPre (by rfl)).1 (by decide)).1

/-- Claim C4 (code bug): with the compiler command absent from disk
(spawn failure) or exiting nonzero on the version query, `find_compiler_info`
raises `NameError` for the undefined identifier `CalledProcessError` — not
the intended `RuntimeError` (`CompilerUnavailable`) — because the `except`
clause of `run_compiler` names an identifier that was never imported. -/
theorem claim_C4 :
    find_compiler_info { versionQuery := .spawnFailure,
                         sysrootQuery := .success "" }
        = .error (.nameError "CalledProcessError")
    ∧ find_compiler_info { versionQuery := .calledProcessError,
                           sysrootQuery := .success "" }
        = .error (.nameError "CalledProcessError") :=
  ⟨rfl, rfl⟩

/-- Claim C5 (code bug): a failing `-print-sysroot` query is not best-effort
in the code — it raises `NameError` via the same undefined
`CalledProcessError` identifier (and even with that name fixed,
`run_compiler` would return `None` and `None.strip()` would raise
`AttributeError`) — while a successful query does record the trimmed
output. -/
theorem claim_C5 :
    find_compiler_info { versionQuery := .success "gcc (GCC) 9.3.0",
                         sysrootQuery := .calledProcessError }
        = .error (.nameError "CalledProcessError")
    ∧ find_compiler_info { versionQuery := .success "gcc (GCC) 9.3.0",
                           sysrootQuery := .success "  /opt/sysroot\n" }
        = .ok "/opt/sysroot" :=
  ⟨rfl, by rfl⟩

/-- The five clear scopes named by the specification. -/
inductive ClearScope where
  | scopeNone
  | scopeCross
  | scopeBuild
  | scopeBoth
  | scopeDefault
deriving DecidableEq

/-- The `clear` constructor argument each scope denotes: `none` is the
falsy default, the others are the string constants the option parser
produces. -/
def ClearScope.toArg : ClearScope → Option String
  | .scopeNone => Option.none
  | .scopeCross => Option.some "cross"
  | .scopeBuild => Option.some "build"
  | .scopeBoth => Option.some "both"
  | .scopeDefault => Option.some "default"

/-- Claim C9: the build subarea is marked for clearing exactly for scopes
default, build-only and both, independent of the cross override; the cross
subarea is marked exactly for cross-only and both when a (truthy) external
cross-location override was supplied, and exactly for default, cross-only
and both when it was not. -/
theorem claim_C9 : ∀ (scope : ClearScope) (cpv : Option String),
    (initClearBuild scope.toArg = true
      ↔ (scope = .scopeDefault ∨ scope = .scopeBuild ∨ scope = .scopeBoth))
    ∧ (crossPrefixTruthy cpv = true →
        (initClearCross cpv scope.toArg = true
          ↔ (scope = .scopeCross ∨ scope = .scopeBoth)))
    ∧ (crossPrefixTruthy cpv = false →
        (initClearCross cpv scope.toArg = true
          ↔ (scope = .scopeDefault ∨ scope = .scopeCross ∨ scope = .scopeBoth))) := by
  intro scope cpv
  refine ⟨?_, ?_, ?_⟩
  · cases scope <;> simp [initClearBuild, ClearScope.toArg]
  · intro h
    cases scope <;> simp [initClearCross, ClearScope.toArg, h]
  · intro h
    cases scope <;> simp [initClearCross, ClearScope.toArg, h]

/-- Witness for claim C9: with an external override `/opt/prefix-dir`, scope
`default` clears build but not cross; scope `both` clears both. -/
theorem claim_C9_witness :
    initClearBuild ClearScope.scopeDefault.toArg = true
    ∧ ¬ initClearCross (Option.some "/opt/prefix-dir")
          ClearScope.scopeDefault.toArg = true
    ∧ initClearCross (Option.some "/opt/prefix-dir")
          ClearScope.scopeBoth.toArg = true := by
  refine ⟨?_, ?_, ?_⟩
  · exact (claim_C9 ClearScope.scopeDefault Option.none).1.mpr
      (Or.inl rfl)
  · intro hc
    have h := ((claim_C9 ClearScope.scopeDefault
        (Option.some "/opt/prefix-dir")).2.1 (by decide)).mp hc
    rcases h with h | h <;> exact ClearScope.noConfusion h
  · exact ((claim_C9 ClearScope.scopeBoth
        (Option.some "/opt/prefix-dir")).2.1 (by decide)).mpr (Or.inr rfl)

/-- The deletion performed by `ensure_directories`: when the root exists and
at least one clear flag is set, every entry of the root *except* `cross` and
`build` is removed (the loop `continue`s on exactly those two names); the
returned list is the set of removed entries in directory order. -/
def ensureDirectoriesRemoved (clear_cross clear_build : Bool)
    (env_dir_exists : Bool) (subdirs : List String) : List String :=
  if env_dir_exists && (clear_cross || clear_build) then
    subdirs.filter (fun sub => !(sub == "cross" || sub == "build"))
  else []

/-- Counterexample to claim C3: on a root containing `cross`, `build` and
`lib`, with the build-only clear flag set, the directory-preparation step
removes exactly `lib` — an entry outside the two named subareas — and
removes neither named subarea; with no flag set it removes nothing. -/
theorem claim_C3_counterexample :
    ensureDirectoriesRemoved false true true ["cross", "build", "lib"] = ["lib"]
    ∧ List.contains ["cross", "build"] "lib" = false
    ∧ ensureDirectoriesRemoved false false true ["cross", "build", "lib"] = [] := by
  refine ⟨rfl, rfl, rfl⟩

/-- Claim C3 as amended: when any clear flag is set the step deletes exactly
the root entries *other than* the two named subareas and never the named
subareas themselves (their clearing is performed later by the per-environment
venv builders according to the scope flags); with both flags clear nothing is
deleted, so the content of both named subareas is left unchanged. -/
theorem claim_C3_amended : ∀ (cc cb ex : Bool) (subdirs : List String),
    (∀ sub ∈ ensureDirectoriesRemoved cc cb ex subdirs,
      sub ≠ "cross" ∧ sub ≠ "build")
    ∧ (cc = false ∧ cb = false →
        ensureDirectoriesRemoved cc cb ex subdirs = [])
    ∧ ((ex && (cc || cb)) = true →
        ensureDirectoriesRemoved cc cb ex subdirs
          = subdirs.filter (fun sub => !(sub == "cross" || sub == "build"))) := by
  intro cc cb ex subdirs
  refine ⟨?_, ?_, ?_⟩
  · intro sub hmem
    by_cases hcond : (ex && (cc || cb)) = true
    · rw [ensureDirectoriesRemoved, if_pos hcond] at hmem
      have := List.of_mem_filter hmem
      constructor
      · intro hx; subst hx; simp at this
      · intro hx; subst hx; simp at this
    · rw [ensureDirectoriesRemoved, if_neg hcond] at hmem
      simp at hmem
  · rintro ⟨h1, h2⟩
    subst h1; subst h2
    simp [ensureDirectoriesRemoved]
  · intro hcond
    rw [ensureDirectoriesRemoved, if_pos hcond]

/-- Witness for the amended claim C3: with no clear flag set nothing is
removed, and with the build flag set on a root with extra entries only the
non-named entries go. -/
theorem claim_C3_witness :
    ensureDirectoriesRemoved false false true ["cross", "build", "lib", "bin"] = []
    ∧ ensureDirectoriesRemoved false true true ["cross", "build", "lib", "bin"]
        = ["lib", "bin"] := by
  refine ⟨?_, ?_⟩
  · exact (claim_C3_amended false false true ["cross", "build", "lib", "bin"]).2.1
      ⟨rfl, rfl⟩
  · exact (claim_C3_amended false true true ["cross", "build", "lib", "bin"]).2.2 rfl

/-- Everything `make_cross_python` interpolates into the generated
delegation script: host descriptor fields, the build context paths, the
sysroot probe results and the caller-supplied variable assignments. -/
structure ScriptInput where
  host_project_base : String
  host_platform : String
  sysconfig_name : String
  host_home : String
  lib_path : String
  stdlib : String
  host_sysroot : String
  sysroot_libs : List String
  sysroot_has_include : Bool
  extra_env_vars : List (String × String × String)
  build_env_exe : String
  cross_bin_path : String
deriving DecidableEq

/-- The first block `make_cross_python` writes to `context.cross_env_exe`:
the shell preamble capturing the invoked name, then the six exports, in the
order of the dedented template (lines with `\x7b`/`\x7d` are literal shell
braces). -/
def crossScriptHeader (s : ScriptInput) : List String :=
  ["#!/bin/sh",
   "_base=$\x7b0##*/\x7d",
   "export PYTHON_CROSSENV=1",
   "export _PYTHON_PROJECT_BASE=\"" ++ s.host_project_base ++ "\"",
   "export _PYTHON_HOST_PLATFORM=\"" ++ s.host_platform ++ "\"",
   "export _PYTHON_SYSCONFIGDATA_NAME=\"" ++ s.sysconfig_name ++ "\"",
   "export PYTHONHOME=\"" ++ s.host_home ++ "\"",
   "export PYTHONPATH=\"" ++ s.lib_path ++ ":" ++ s.stdlib
     ++ "$\x7bPYTHONPATH:+:$PYTHONPATH\x7d\""]

/-- The sysroot block: written only when `self.host_sysroot` is truthy;
a nonempty `usr/lib*` glob yields the `LIBRARY_PATH` export (entries joined
with `os.pathsep`), an existing `usr/include` directory yields the `CPATH`
export; each missing piece only logs a warning. -/
def sysrootLines (s : ScriptInput) : List String :=
  if s.host_sysroot = "" then []
  else
    (if s.sysroot_libs.isEmpty then []
     else ["export LIBRARY_PATH=" ++ strJoinWith ":" s.sysroot_libs])
    ++
    (if s.sysroot_has_include then
       ["export CPATH=" ++ osPathJoin (osPathJoin s.host_sysroot "usr") "include"]
     else [])

/-- One line of the caller-supplied variable block: `=` entries become an
unconditional export, `?=` entries become the `[ -z ... ] && export` guard;
any other operator hits the `assert False` (modeled as `Option.none`). -/
def envVarLine (e : String × String × String) : Option String :=
  if e.2.1 = "=" then
    Option.some ("export " ++ e.1 ++ "=" ++ e.2.2)
  else if e.2.1 = "?=" then
    Option.some ("[ -z \"$\x7b" ++ e.1 ++ "\x7d\" ] && export "
      ++ e.1 ++ "=" ++ e.2.2)
  else
    Option.none

/-- The line `envVarLine` emits for a well-formed entry, as a total
function. -/
def emittedLine (e : String × String × String) : String :=
  if e.2.1 = "=" then "export " ++ e.1 ++ "=" ++ e.2.2
  else "[ -z \"$\x7b" ++ e.1 ++ "\x7d\" ] && export " ++ e.1 ++ "=" ++ e.2.2

/-- The closing block of the script: `exec` of the build interpreter with an
inline program that `os.execv`s the build interpreter again, passing
`"$cross_bin_path/$_base"` and then all original arguments (`"$@"`). -/
def execLines (s : ScriptInput) : List String :=
  ["exec " ++ s.build_env_exe ++ " -c \x27",
   "import sys",
   "import os",
   "os.execv(\"" ++ s.build_env_exe ++ "\", sys.argv[1:])",
   "\x27 \"" ++ s.cross_bin_path ++ "/$_base\" \"$@\""]

/-- The caller-supplied variable block: one emitted line per entry, in
list order; `Option.none` when some entry's operator is neither `=` nor
`?=` (where the Python loop hits `assert False`). -/
def envVarLines : List (String × String × String) → Option (List String)
  | [] => Option.some []
  | e :: rest =>
    match envVarLine e, envVarLines rest with
    | Option.some l, Option.some ls => Option.some (l :: ls)
    | _, _ => Option.none

/-- The full delegation script `make_cross_python` writes, as its list of
lines: header block, optional sysroot block, caller-supplied variable block
(`Option.none` when an entry's operator is neither `=` nor `?=`, where the
Python code asserts), closing exec block. -/
def makeCrossScript (s : ScriptInput) : Option (List String) :=
  match envVarLines s.extra_env_vars with
  | Option.none => Option.none
  | Option.some lines =>
    Option.some (crossScriptHeader s ++ sysrootLines s ++ lines ++ execLines s)

/-- Shell semantics of the `PYTHONPATH` export: the value the shell
assigns, given the pre-existing `PYTHONPATH` (`Option.none` when unset).
`$\x7bPYTHONPATH:+:$PYTHONPATH\x7d` expands to `:` followed by the old value
when that is set and nonempty, and to nothing otherwise. -/
def pythonpathValue (s : ScriptInput) (old : Option String) : String :=
  s.lib_path ++ ":" ++ s.stdlib ++
    (match old with
     | Option.none => ""
     | Option.some v => if v = "" then "" else ":" ++ v)

/-- Shell semantics of `$\x7b0##*/\x7d`: the basename of the invoked
path. -/
def shellBaseName (p : String) : String :=
  match (pySplitChar '/' p).getLast? with
  | Option.none => p
  | Option.some x => x

/-- Combined shell and Python semantics of `execLines`: the delegated
process image and its argument vector. The outer shell passes
`cross_bin_path/$_base` and then the original arguments to the inline
program, whose `os.execv(build_env_exe, sys.argv[1:])` starts the build
interpreter with the cross path as `argv[0]` followed by the original
arguments unmodified. -/
def delegatedArgv (s : ScriptInput) (argv0 : String) (args : List String) :
    String × List String :=
  (s.build_env_exe, (s.cross_bin_path ++ "/" ++ shellBaseName argv0) :: args)

/-- Shell semantics of one emitted variable line: how executing the line for
entry `e` transforms the environment. An `=` line always assigns; a `?=`
line assigns only when the variable is unset or empty. -/
def applyAssign (e : String × String × String)
    (env : String → Option String) : String → Option String :=
  fun n =>
    if n = e.1 then
      (if e.2.1 = "=" then Option.some e.2.2
       else
         match env e.1 with
         | Option.none => Option.some e.2.2
         | Option.some w => if w = "" then Option.some e.2.2 else Option.some w)
    else env n

/-- Claim C6: whenever the variable block is well-formed, the generated
script is exactly the two-line shell preamble followed by, in this order,
the cross-mode marker export, the host project base, host platform and
host configuration-data-module exports, the home override export, and the
module search-path export; then the optional sysroot and caller-variable
blocks; and it ends with the delegation block. The search-path export
prepends the staging path and the build stdlib before a pre-existing
nonempty `PYTHONPATH`, which is preserved as a suffix, and the delegation
starts the build interpreter with `argv[0]` replaced by the cross binary
path and all original arguments forwarded. -/
theorem claim_C6 : ∀ (s : ScriptInput) (lines : List String),
    envVarLines s.extra_env_vars = Option.some lines →
    makeCrossScript s = Option.some
      (["#!/bin/sh",
        "_base=$\x7b0##*/\x7d",
        "export PYTHON_CROSSENV=1",
        "export _PYTHON_PROJECT_BASE=\"" ++ s.host_project_base ++ "\"",
        "export _PYTHON_HOST_PLATFORM=\"" ++ s.host_platform ++ "\"",
        "export _PYTHON_SYSCONFIGDATA_NAME=\"" ++ s.sysconfig_name ++ "\"",
        "export PYTHONHOME=\"" ++ s.host_home ++ "\"",
        "export PYTHONPATH=\"" ++ s.lib_path ++ ":" ++ s.stdlib
          ++ "$\x7bPYTHONPATH:+:$PYTHONPATH\x7d\""]
       ++ sysrootLines s ++ lines ++ execLines s)
    ∧ (∀ old, old ≠ "" →
        pythonpathValue s (Option.some old)
          = s.lib_path ++ ":" ++ s.stdlib ++ ":" ++ old)
    ∧ pythonpathValue s Option.none = s.lib_path ++ ":" ++ s.stdlib
    ∧ (∀ argv0 args,
        (delegatedArgv s argv0 args).1 = s.build_env_exe
        ∧ (delegatedArgv s argv0 args).2
            = (s.cross_bin_path ++ "/" ++ shellBaseName argv0) :: args) := by
  intro s lines h
  refine ⟨?_, ?_, ?_, ?_⟩
  · simp only [makeCrossScript, h, crossScriptHeader]
  · intro old hold
    simp [pythonpathValue, hold, String.append_assoc]
  · simp [pythonpathValue]
  · intro argv0 args
    exact ⟨rfl, rfl⟩

/-- A concrete script input: installed host tree `/opt/host`, platform
`linux-arm`, no sysroot, no extra variables. -/
def sampleScriptInput : ScriptInput :=
  { host_project_base := "/opt/host/bin",
    host_platform := "linux-arm",
    sysconfig_name := "_sysconfigdata__linux_arm-linux-gnueabi",
    host_home := "/opt/host",
    lib_path := "/env/lib",
    stdlib := "/usr/lib/python3.9",
    host_sysroot := "",
    sysroot_libs := [],
    sysroot_has_include := false,
    extra_env_vars := [],
    build_env_exe := "/env/build/bin/python",
    cross_bin_path := "/env/cross/bin" }

/-- Witness for claim C6 at `sampleScriptInput`. -/
theorem claim_C6_witness :
    makeCrossScript sampleScriptInput = Option.some
      (["#!/bin/sh",
        "_base=$\x7b0##*/\x7d",
        "export PYTHON_CROSSENV=1",
        "export _PYTHON_PROJECT_BASE=\"/opt/host/bin\"",
        "export _PYTHON_HOST_PLATFORM=\"linux-arm\"",
        "export _PYTHON_SYSCONFIGDATA_NAME=\"_sysconfigdata__linux_arm-linux-gnueabi\"",
        "export PYTHONHOME=\"/opt/host\"",
        "export PYTHONPATH=\"/env/lib:/usr/lib/python3.9$\x7bPYTHONPATH:+:$PYTHONPATH\x7d\""]
       ++ sysrootLines sampleScriptInput ++ []
       ++ execLines sampleScriptInput)
    ∧ pythonpathValue sampleScriptInput (Option.some "/pre")
        = "/env/lib:/usr/lib/python3.9:/pre" := by
  have h := claim_C6 sampleScriptInput [] rfl
  exact ⟨h.1, h.2.1 "/pre" (by decide)⟩

/-- Claim C7: a well-formed caller-supplied assignment list is emitted as
exactly one line per entry, in the original order, with no deduplication
(`List.map` keeps duplicates); `=` entries become the unconditional export
whose execution overwrites any existing value, `?=` entries become the
guarded line whose execution assigns only when the variable is unset or
empty and preserves a pre-set nonempty value. -/
theorem claim_C7 : ∀ entries : List (String × String × String),
    (∀ e ∈ entries, e.2.1 = "=" ∨ e.2.1 = "?=") →
    (envVarLines entries = Option.some (entries.map emittedLine)
      ∧ (entries.map emittedLine).length = entries.length)
    ∧ (∀ n v, emittedLine (n, "=", v) = "export " ++ n ++ "=" ++ v)
    ∧ (∀ n v, emittedLine (n, "?=", v)
        = "[ -z \"$\x7b" ++ n ++ "\x7d\" ] && export " ++ n ++ "=" ++ v)
    ∧ (∀ n v env, applyAssign (n, "=", v) env n = Option.some v)
    ∧ (∀ n v w env, env n = Option.some w → w ≠ "" →
        applyAssign (n, "?=", v) env n = Option.some w)
    ∧ (∀ n v env, env n = Option.none ∨ env n = Option.some "" →
        applyAssign (n, "?=", v) env n = Option.some v) := by
  intro entries hops
  refine ⟨⟨?_, by simp⟩, ?_, ?_, ?_, ?_, ?_⟩
  · induction entries with
    | nil => rfl
    | cons e rest ih =>
      have he := hops e (List.mem_cons_self e rest)
      have hrest : ∀ x ∈ rest, x.2.1 = "=" ∨ x.2.1 = "?=" :=
        fun x hx => hops x (List.mem_cons_of_mem e hx)
      have hline : envVarLine e = Option.some (emittedLine e) := by
        rcases he with he | he <;> simp [envVarLine, emittedLine, he]
      simp [envVarLines, hline, ih hrest]
  · intro n v
    simp [emittedLine]
  · intro n v
    simp [emittedLine]
  · intro n v env
    simp [applyAssign]
  · intro n v w env hw hne
    simp [applyAssign, hw, hne]
  · intro n v env hcase
    rcases hcase with hc | hc <;> simp [applyAssign, hc]

/-- The two assignments of the end-to-end scenario: `FOO=bar` always set,
`BAZ?=qux` set only if unset. -/
def sampleEnvVars : List (String × String × String) :=
  [("FOO", "=", "bar"), ("BAZ", "?=", "qux")]

/-- Witness for claim C7: the two sample entries emit their two lines in
order, and with `BAZ` pre-set to `zap` the guarded assignment leaves `zap`
in place. -/
theorem claim_C7_witness :
    envVarLines sampleEnvVars = Option.some (sampleEnvVars.map emittedLine)
    ∧ applyAssign ("BAZ", "?=", "qux")
        (fun n => if n = "BAZ" then Option.some "zap" else Option.none) "BAZ"
        = Option.some "zap" := by
  have h := claim_C7 sampleEnvVars (by decide)
  refine ⟨h.1.1, ?_⟩
  exact h.2.2.2.2.1 "BAZ" "qux" "zap"
    (fun n => if n = "BAZ" then Option.some "zap" else Option.none)
    (by simp) (by decide)

/-- Python `str.split()` with no argument: tokens separated by runs of
whitespace, with no empty tokens. -/
def pySplitWsAux : List Char → List Char → List String
  | [], acc => if acc.isEmpty then [] else [String.mk acc.reverse]
  | c :: cs, acc =>
    if isPySpace c then
      (if acc.isEmpty then pySplitWsAux cs []
       else String.mk acc.reverse :: pySplitWsAux cs [])
    else pySplitWsAux cs (c :: acc)

/-- Python `str.split()` with no argument. -/
def pySplitWs (s : String) : List String :=
  pySplitWsAux s.data []

/-- The per-line transformation of the `pyvenv.cfg` rewrite loop in
`make_cross_python`: a line whose first two whitespace tokens are `home`
and `=` is replaced by the host-project-base assignment (with trailing
newline, as the Python `%`-format writes it); any other line is written
back unchanged. -/
def rewriteHomeLine (host_project_base : String) (line : String) : String :=
  if (pySplitWs line).take 2 = ["home", "="] then
    "home = " ++ host_project_base ++ "\n"
  else line

/-- The whole `pyvenv.cfg` rewrite: the loop copies the file line by line
through `rewriteHomeLine`. -/
def rewriteCfg (host_project_base : String) (lines : List String) : List String :=
  lines.map (rewriteHomeLine host_project_base)

/-- Claim C8: the descriptor rewrite preserves the number of lines, replaces
each line whose first two whitespace-separated tokens are `home` and `=` by
the assignment of `home` to the host project base, and reproduces every
other line verbatim at its original position. -/
theorem claim_C8 : ∀ (base : String) (lines : List String),
    (rewriteCfg base lines).length = lines.length
    ∧ ∀ (i : Nat) (l : String), lines[i]? = Option.some l →
        (((pySplitWs l).take 2 = ["home", "="] →
          (rewriteCfg base lines)[i]? = Option.some ("home = " ++ base ++ "\n"))
         ∧ ((pySplitWs l).take 2 ≠ ["home", "="] →
          (rewriteCfg base lines)[i]? = Option.some l)) := by
  intro base lines
  refine ⟨by simp [rewriteCfg], ?_⟩
  intro i l hl
  have hmap : (rewriteCfg base lines)[i]?
      = Option.some (rewriteHomeLine base l) := by
    simp [rewriteCfg, List.getElem?_map, hl]
  constructor
  · intro hmatch
    rw [hmap, rewriteHomeLine, if_pos hmatch]
  · intro hmiss
    rw [hmap, rewriteHomeLine, if_neg hmiss]

/-- Witness for claim C8 on a two-line descriptor: the `home` line is
rewritten, the other line is reproduced verbatim. -/
theorem claim_C8_witness :
    (rewriteCfg "/opt/host/bin"
      ["home = /usr\n", "include-system-site-packages = false\n"])[0]?
      = Option.some "home = /opt/host/bin\n"
    ∧ (rewriteCfg "/opt/host/bin"
      ["home = /usr\n", "include-system-site-packages = false\n"])[1]?
      = Option.some "include-system-site-packages = false\n" := by
  refine ⟨?_, ?_⟩
  · exact ((claim_C8 "/opt/host/bin"
      ["home = /usr\n", "include-system-site-packages = false\n"]).2 0
      "home = /usr\n" rfl).1 (by decide)
  · exact ((claim_C8 "/opt/host/bin"
      ["home = /usr\n", "include-system-site-packages = false\n"]).2 1
      "include-system-site-packages = false\n" rfl).2 (by decide)

/-- Python `str.title()` restricted to ASCII, as applied to the sysname:
the first letter of each alphabetic run is uppercased, the rest
lowercased. -/
def pyTitleAux : Bool → List Char → List Char
  | _, [] => []
  | prevAlpha, c :: cs =>
    if c.isAlpha then
      (if prevAlpha then c.toLower else c.toUpper) :: pyTitleAux true cs
    else c :: pyTitleAux false cs

/-- Python `str.title()` (ASCII). -/
def pyTitle (s : String) : String :=
  String.mk (pyTitleAux false s.data)

/-- The `[uname]` section `create_configuration` writes into
`crossenv.cfg`. -/
structure UnameConfig where
  sysname : String
  nodename : String
  release : String
  version : String
  machine : String
deriving DecidableEq

/-- Embeds `create_configuration`: `sysname, machine = self.host_platform.split('-')`
succeeds only when the split has exactly two fields (otherwise the tuple
unpacking raises `ValueError`, modeled as `Option.none`); on success the
uname section holds the title-cased sysname, the fixed nodename `build`,
empty release/version placeholders and the machine field. -/
def create_configuration (host_platform : String) : Option UnameConfig :=
  match pySplitChar '-' host_platform with
  | [sysname, machine] =>
    Option.some { sysname := pyTitle sysname,
                  nodename := "build",
                  release := "",
                  version := "",
                  machine := machine }
  | _ => Option.none

/-- The split of a string at `-` has one more field than the string has
`-` characters. -/
theorem pySplitCharAux_length (sep : Char) : ∀ (cs : List Char) (acc : List Char),
    (pySplitCharAux sep cs acc).length = cs.count sep + 1 := by
  intro cs
  induction cs with
  | nil => intro acc; simp [pySplitCharAux]
  | cons c cs ih =>
    intro acc
    by_cases hc : c = sep
    · subst hc
      simp [pySplitCharAux, ih, List.count_cons]
    · simp [pySplitCharAux, hc, ih, List.count_cons]

/-- Claim C10: configuration writing succeeds exactly when the host platform
string contains exactly one `-` separator — with zero or two or more
separators the two-element unpacking fails and no descriptor is produced —
and the host platform defaults to the running system's `sys.platform`
whenever no Makefile line starts with the platform-triple key. -/
theorem claim_C10 : ∀ p : String,
    ((create_configuration p).isSome ↔ p.data.count '-' = 1)
    ∧ (∀ (mkLines : List String) (dflt : String),
        (∀ l ∈ mkLines,
          strStartsWith (pyStrip l) "_PYTHON_HOST_PLATFORM=" = false) →
        scanPlatform mkLines dflt = dflt) := by
  intro p
  constructor
  · have hlen : (pySplitChar '-' p).length = p.data.count '-' + 1 :=
      pySplitCharAux_length '-' p.data []
    rw [create_configuration]
    rcases hsplit : pySplitChar '-' p with _ | ⟨a, _ | ⟨b, _ | ⟨c, rest⟩⟩⟩ <;>
      rw [hsplit] at hlen <;> simp_all <;> omega
  · intro mkLines dflt hall
    have hfind : mkLines.find?
        (fun l => strStartsWith (pyStrip l) "_PYTHON_HOST_PLATFORM=") = Option.none := by
      rw [List.find?_eq_none]
      intro x hx
      simp [hall x hx]
    rw [scanPlatform, hfind]

/-- Witness for claim C10: the default platform `linux` (no `-`) makes
configuration writing fail, while the cross platform `linux-arm`
succeeds; an empty Makefile keeps the `sys.platform` default. -/
theorem claim_C10_witness :
    (create_configuration "linux").isSome = false
    ∧ (create_configuration "linux-arm").isSome = true
    ∧ scanPlatform [] "linux" = "linux" := by
  refine ⟨?_, ?_, ?_⟩
  · have h := (claim_C10 "linux").1
    by_contra hc
    simp only [Bool.not_eq_false] at hc
    have := h.mp hc
    simp at this
  · exact (claim_C10 "linux-arm").1.mpr (by decide)
  · exact (claim_C10 "linux").2 [] "linux" (by simp)
